import Mathlib

/-!
Verification development for the `server-rssi` repository: a shallow
embedding of its position-estimation pipeline (path-loss distance
estimation, Kalman smoothing, trilateration, change gating, payload and
configuration parsing) together with theorems settling the specification
claims.  Python floats are idealised as exact real numbers `ℝ`; raw RSSI
values are integers `ℤ`; Python dicts (which iterate in insertion order)
are modelled as association lists.
-/

noncomputable section

namespace RSSI

/-- Association-list lookup, modelling Python `d[k]` / `k in d` on dicts. -/
def lookupA {α : Type} (l : List (String × α)) (k : String) : Option α :=
  match l with
  | [] => none
  | (k1, v) :: rest => if k1 = k then some v else lookupA rest k

/-- Association-list update `d[k] = v`: replaces the existing binding in
place, or appends a new one (Python dicts keep insertion order). -/
def updateA {α : Type} (l : List (String × α)) (k : String) (v : α) :
    List (String × α) :=
  match l with
  | [] => [(k, v)]
  | (k1, v1) :: rest =>
      if k1 = k then (k, v) :: rest else (k1, v1) :: updateA rest k v

/-- Model of Python `str.split(sep)` for a one-character separator, on the
character list of the string.  The result is always nonempty. -/
def splitOnChar (c : Char) : List Char → List (List Char)
  | [] => [[]]
  | x :: xs =>
    match splitOnChar c xs with
    | [] => [[x]]
    | p :: ps => if x = c then [] :: p :: ps else (x :: p) :: ps

/-- Value of a nonempty all-digit character list, `none` otherwise. -/
def digitsToNat (l : List Char) : Option ℕ :=
  if l ≠ [] ∧ l.all (fun c => c.isDigit) then
    some (l.foldl (fun a c => a * 10 + (c.toNat - 48)) 0)
  else none

/-- Model of Python `int(s)` on an (already stripped) character list:
an optional sign followed by one or more decimal digits. -/
def parseIntChars (l : List Char) : Option ℤ :=
  match l with
  | '-' :: rest => (digitsToNat rest).map (fun n => -(n : ℤ))
  | '+' :: rest => (digitsToNat rest).map (fun n => (n : ℤ))
  | _ => (digitsToNat l).map (fun n => (n : ℤ))

/-- Fractional part value: digit list `d₁…dₖ` ↦ 0.d₁…dₖ as a rational. -/
def fracValue (l : List Char) : ℚ :=
  (l.foldl (fun a c => a * 10 + (c.toNat - 48)) 0 : ℚ) / 10 ^ l.length

/-- Model of Python `float(s)` restricted to plain signless decimal
notation: digits with an optional decimal point; one side of the point
may be empty (`"1."`, `".5"`), but not both. -/
def parseUnsignedDecimal (l : List Char) : Option ℚ :=
  match splitOnChar '.' l with
  | [intPart] => (digitsToNat intPart).map (fun n => (n : ℚ))
  | [intPart, fracPart] =>
      if intPart = [] ∧ fracPart = [] then none
      else if intPart.all (fun c => c.isDigit) ∧
              fracPart.all (fun c => c.isDigit) then
        some ((intPart.foldl (fun a c => a * 10 + (c.toNat - 48)) 0 : ℚ) +
          fracValue fracPart)
      else none
  | _ => none

/-- Model of Python `float(s)`: optional sign then plain decimal notation
(exponent forms, `inf`/`nan` and whitespace tolerance are not modelled;
no claim exercises them). -/
def parseFloatChars (l : List Char) : Option ℚ :=
  match l with
  | '-' :: rest => (parseUnsignedDecimal rest).map (fun q => -q)
  | '+' :: rest => parseUnsignedDecimal rest
  | _ => parseUnsignedDecimal l

/-- Model of Python `round(x, 2)`.  (Python rounds ties to even; `round`
here rounds ties up — the claims never evaluate at an exact tie.) -/
def round2 (x : ℝ) : ℝ := (round (x * 100) : ℤ) / 100

/-- Model of Python `round(x, 1)`. -/
def round1 (x : ℝ) : ℝ := (round (x * 10) : ℤ) / 10

/-! ### basic.py : module-level constants and pure functions -/

/-- `TX_POWER = -55` (basic.py). -/
def TX_POWER : ℝ := -55

/-- `ENV_FACTOR = 2.8` (basic.py). -/
def ENV_FACTOR : ℝ := 2.8

/-- `estimate_distance` (basic.py): `None` on `rssi == 0`, otherwise
`10 ** ((TX_POWER - rssi) / (10 * ENV_FACTOR))` — note: no positivity
check and no clamping in this variant. -/
def estimate_distance (rssi : ℤ) : Option ℝ :=
  if rssi = 0 then none
  else some ((10 : ℝ) ^ ((TX_POWER - (rssi : ℝ)) / (10 * ENV_FACTOR)))

/-- `calculate_position_accuracy` (basic.py): mean absolute residual of
the solved point against the measured distances, mapped to a 0–100 score
`max(0, 100 - avg_error * 10)` and rounded to one decimal. -/
def calculate_position_accuracy (positions : List (ℝ × ℝ))
    (distances : List ℝ) (pos : ℝ × ℝ) : ℝ :=
  let errors := (positions.zip distances).map fun pd =>
    |Real.sqrt ((pos.1 - pd.1.1) ^ 2 + (pos.2 - pd.1.2) ^ 2) - pd.2|
  let avg := errors.sum / (errors.length : ℝ)
  round1 (max 0 (100 - avg * 10))

/-- `trilaterate` (basic.py, identical core in test_trilateration.py and
`User.calculate_position`): Cramer's-rule solve of the linearised circle
system for the first three readings, with the `|denominator| < 1e-10`
degeneracy guard.  Returns the position together with the accuracy score.
(The Python returns `(None, None)` when fewer than 3 positions are given;
fewer than 3 distances would raise, which the callers catch — both are
`none` here.) -/
def trilaterate (positions : List (ℝ × ℝ)) (distances : List ℝ) :
    Option ((ℝ × ℝ) × ℝ) :=
  match positions, distances with
  | (x1, y1) :: (x2, y2) :: (x3, y3) :: _, r1 :: r2 :: r3 :: _ =>
    let A := 2 * (x2 - x1)
    let B := 2 * (y2 - y1)
    let C := r1 ^ 2 - r2 ^ 2 - x1 ^ 2 + x2 ^ 2 - y1 ^ 2 + y2 ^ 2
    let D := 2 * (x3 - x2)
    let E := 2 * (y3 - y2)
    let F := r2 ^ 2 - r3 ^ 2 - x2 ^ 2 + x3 ^ 2 - y2 ^ 2 + y3 ^ 2
    let den := A * E - B * D
    if |den| < 1 / 10 ^ 10 then none
    else
      let x := (C * E - F * B) / den
      let y := (A * F - C * D) / den
      some ((x, y),
        calculate_position_accuracy (positions.take 3) (distances.take 3)
          (x, y))
  | _, _ => none

/-! ### Configuration records and the beacon-coordinate loaders -/

/-- A beacon record of the configuration file: a MAC and the optional
`"toado"` coordinate string (as a character list). -/
structure BeaconCfg where
  mac : String
  toado : Option (List Char)

/-- Parse one `"x,y"` coordinate string the way the basic.py loader does:
tuple-unpack the comma split (so exactly two components) and `float(..)`
each side. -/
def parseCoordPair (s : List Char) : Option (ℝ × ℝ) :=
  match splitOnChar ',' s with
  | [xs, ys] =>
      match parseFloatChars xs, parseFloatChars ys with
      | some x, some y => some ((x : ℝ), (y : ℝ))
      | _, _ => none
  | _ => none

/-- The module-level `beacon_coords` loader of basic.py (same code in
test_trilateration.py): entries without `"toado"` are skipped silently;
entries whose coordinate string fails to split/parse are skipped with a
warning (the bare `except` around the unpack and `float` calls); the rest
are loaded.  Returns the registry together with the warned MACs. -/
def beacon_coords (cfg : List BeaconCfg) :
    List (String × (ℝ × ℝ)) × List String :=
  match cfg with
  | [] => ([], [])
  | b :: rest =>
    let r := beacon_coords rest
    match b.toado with
    | none => r
    | some s =>
        match parseCoordPair s with
        | some xy => ((b.mac, xy) :: r.1, r.2)
        | none => (r.1, b.mac :: r.2)

/-! ### basic.py : 2-dimensional Kalman filter and the notification state -/

/-- State of the `create_kalman_filter()` filter of basic.py
(`dim_x = 2, dim_z = 1`): state vector `(x0, x1)` = (distance, velocity)
and covariance matrix `(p00 p01; p10 p11)`.  `F = (1 1; 0 1)`,
`H = (1 0)`, initial `P = 1000·I`, `R = 0.1`,
`Q = (0.01 0.01; 0.01 0.1)`. -/
structure KF2 where
  x0 : ℝ
  x1 : ℝ
  p00 : ℝ
  p01 : ℝ
  p10 : ℝ
  p11 : ℝ

/-- `create_kalman_filter()` (basic.py). -/
def KF2.init : KF2 := ⟨0, 0, 1000, 0, 0, 1000⟩

/-- `kf.predict()`: `x := F x`, `P := F P Fᵀ + Q`. -/
def KF2.predict (kf : KF2) : KF2 :=
  ⟨kf.x0 + kf.x1, kf.x1,
   kf.p00 + kf.p10 + kf.p01 + kf.p11 + 1 / 100,
   kf.p01 + kf.p11 + 1 / 100,
   kf.p10 + kf.p11 + 1 / 100,
   kf.p11 + 1 / 10⟩

/-- `kf.update(z)` (filterpy, Joseph-form covariance update) with
`H = (1 0)` and scalar `R = 0.1`. -/
def KF2.update (kf : KF2) (z : ℝ) : KF2 :=
  let R : ℝ := 1 / 10
  let y := z - kf.x0
  let S := kf.p00 + R
  let K0 := kf.p00 / S
  let K1 := kf.p10 / S
  ⟨kf.x0 + K0 * y, kf.x1 + K1 * y,
   (1 - K0) * kf.p00 * (1 - K0) + K0 * R * K0,
   (1 - K0) * kf.p00 * (-K1) + (1 - K0) * kf.p01 + K0 * R * K1,
   (kf.p10 - K1 * kf.p00) * (1 - K0) + K1 * R * K0,
   (kf.p10 - K1 * kf.p00) * (-K1) + (kf.p11 - K1 * kf.p01) + K1 * R * K1⟩

/-- `get_beacon_name_from_mac` (basic.py): the 1-based index of the MAC
in the configured beacon list as `"beacon<i>"`, or the MAC itself. -/
def beaconNameFrom : List BeaconCfg → ℕ → String → String
  | [], _, mac => mac
  | b :: rest, i, mac =>
      if b.mac = mac then "beacon" ++ toString (i + 1)
      else beaconNameFrom rest (i + 1) mac

/-- A stored `user_positions` entry of basic.py.  (The wall-clock
`timestamp` field is not modelled.) -/
structure BasicPos where
  x : ℝ
  y : ℝ
  accuracy : ℝ
  beacons_used : List String

/-- The module-level mutable state of basic.py: the per-beacon Kalman
filters, `user_data` (user → beacon MAC → filtered distance) and
`user_positions`. -/
structure BasicState where
  kalman_filters : List (String × KF2)
  user_data : List (String × List (String × ℝ))
  user_positions : List (String × BasicPos)

/-- `BeaconDelegate.handleNotification` (basic.py): parse
`"user_id:rssi"`, drop the sample when the payload shape is wrong, the
RSSI is not an integer, or `estimate_distance` rejects it; otherwise
Kalman-filter the raw distance, record it, and when at least 3 beacons
with known coordinates report for the user run `trilaterate` and store
the position (rounded, with its accuracy and the first 3 beacon names).
Any exception path of the Python code leaves the state untouched.
(The `.strip()` whitespace trim and the wall-clock timestamp are not
modelled: payloads are taken as already stripped.) -/
def handleNotification (cfg : List BeaconCfg) (st : BasicState)
    (selfMac : String) (data : List Char) : BasicState :=
  let reg := (beacon_coords cfg).1
  match splitOnChar ':' data with
  | [uid, rssiStr] =>
    match parseIntChars rssiStr with
    | none => st
    | some rssi =>
      match estimate_distance rssi with
      | none => st
      | some raw_distance =>
        let uid0 := String.mk uid
        let kf0 := (lookupA st.kalman_filters selfMac).getD KF2.init
        let kf := (kf0.predict).update raw_distance
        let filtered := kf.x0
        let userd := updateA ((lookupA st.user_data uid0).getD []) selfMac
          filtered
        let st1 : BasicState :=
          { st with
              kalman_filters := updateA st.kalman_filters selfMac kf,
              user_data := updateA st.user_data uid0 userd }
        let readings := userd.filterMap fun md =>
          (lookupA reg md.1).map fun c =>
            (c, md.2, beaconNameFrom cfg 0 md.1)
        if 3 ≤ readings.length then
          match trilaterate (readings.map fun r => r.1)
              (readings.map fun r => r.2.1) with
          | some ((x, y), accuracy) =>
              { st1 with
                  user_positions := updateA st1.user_positions uid0
                    ⟨round2 x, round2 y, accuracy,
                      (readings.map fun r => r.2.2).take 3⟩ }
          | none => st1
        else st1
  | _ => st

/-! ### triangulation.py : per-user Kalman filtering and position pipeline -/

/-- State of the 1-dimensional `filterpy` Kalman filter built in
`User.update_beacon_rssi` (`dim_x = dim_z = 1`, `F = H = 1`): the current
estimate `x` and its variance `P`.  Constructed with `x` = first RSSI and
`P = 2`; `R = 4`, `Q = 0.01`. -/
structure KF1 where
  x : ℝ
  P : ℝ

/-- `kf.predict()` for the scalar filter: `x := F x = x`,
`P := F P Fᵀ + Q = P + 0.01`. -/
def KF1.predict (kf : KF1) : KF1 := ⟨kf.x, kf.P + 1 / 100⟩

/-- `kf.update(z)` for the scalar filter (filterpy, Joseph-form covariance
update): `S = P + R`, `K = P / S`, `x := x + K (z - x)`,
`P := (1 - K) P (1 - K) + K R K`. -/
def KF1.update (kf : KF1) (z : ℝ) : KF1 :=
  let S := kf.P + 4
  let K := kf.P / S
  ⟨kf.x + K * (z - kf.x), (1 - K) * kf.P * (1 - K) + K * 4 * K⟩

/-- One value of `User.beacon_data` (triangulation.py): the raw RSSI, the
Kalman-filtered RSSI, the bounded raw-RSSI history, the derived distance
and the beacon's position. -/
structure BeaconEntry where
  rssi : ℤ
  filtered_rssi : ℝ
  rssi_history : List ℤ
  distance : ℝ
  position : ℝ × ℝ

/-- `User` (triangulation.py): per-entity state. -/
structure User where
  user_id : String
  beacon_data : List (String × BeaconEntry)
  last_position : Option (ℝ × ℝ)
  position_history : List (ℝ × ℝ)
  kalman_filters : List (String × KF1)

/-- `User.__init__`. -/
def User.mk0 (uid : String) : User := ⟨uid, [], none, [], []⟩

/-- `User._rssi_to_distance` (triangulation.py): `-1.0` sentinel on zero
or positive RSSI, `0.1` when the signal is at least `tx_power`, otherwise
`10 ** ((tx_power - rssi) / 30)` clamped by `max(0.1, min(d, 100.0))`.
(The call site passes the Kalman-filtered RSSI, a float, hence `ℝ`.) -/
def User.rssi_to_distance (rssi : ℝ) (tx_power : ℝ := -55) : ℝ :=
  if rssi = 0 then -1
  else if 0 < rssi then -1
  else if tx_power ≤ rssi then 0.1
  else max 0.1 (min ((10 : ℝ) ^ ((tx_power - rssi) / 30)) 100)

/-- `User.update_beacon_rssi` (triangulation.py): create-or-fetch the
per-beacon Kalman filter, run predict/update on the raw RSSI, extend the
bounded RSSI history, convert the filtered RSSI to a distance, store the
new `BeaconEntry`, and report `is_new_beacon or significant_change`
(distance moved by more than 0.5 m). -/
def User.update_beacon_rssi (u : User) (mac : String) (rssi : ℤ)
    (beacon_position : ℝ × ℝ) : User × Bool :=
  let kf0 := match lookupA u.kalman_filters mac with
    | some kf => kf
    | none => ⟨(rssi : ℝ), 2⟩
  let kf := (kf0.predict).update (rssi : ℝ)
  let filtered_rssi := kf.x
  let history0 := match lookupA u.beacon_data mac with
    | some e => e.rssi_history
    | none => []
  let history1 := history0 ++ [rssi]
  let rssi_history := if 5 < history1.length then history1.drop 1 else history1
  let distance := User.rssi_to_distance filtered_rssi
  let significant : Bool := match lookupA u.beacon_data mac with
    | some e => if 0.5 < |distance - e.distance| then true else false
    | none => true          -- is_new_beacon
  ({ u with
      beacon_data := updateA u.beacon_data mac
        ⟨rssi, filtered_rssi, rssi_history, distance, beacon_position⟩,
      kalman_filters := updateA u.kalman_filters mac kf },
   significant)

/-- Stable insertion into a distance-sorted list (strict `<`, so elements
with equal keys keep their original relative order, as Python's stable
`sorted` does). -/
def insertByDistance (p : String × BeaconEntry) :
    List (String × BeaconEntry) → List (String × BeaconEntry)
  | [] => [p]
  | q :: qs =>
      if p.2.distance < q.2.distance then p :: q :: qs
      else q :: insertByDistance p qs

/-- `sorted(self.beacon_data.items(), key=lambda x: x[1]['distance'])`:
a stable ascending sort by distance. -/
def sortByDistance : List (String × BeaconEntry) →
    List (String × BeaconEntry)
  | [] => []
  | p :: ps => insertByDistance p (sortByDistance ps)

/-- `User.get_closest_beacons` (triangulation.py). -/
def User.get_closest_beacons (u : User) (count : ℕ := 3) :
    List (String × BeaconEntry) :=
  if u.beacon_data.isEmpty then []
  else (sortByDistance u.beacon_data).take count

/-- `User.can_calculate_position` (triangulation.py). -/
def User.can_calculate_position (u : User) : Bool :=
  3 ≤ u.beacon_data.length

/-- `User.calculate_position` (triangulation.py): take the 3 closest
beacons, reject non-positive distances, and solve the same linearised
system as `trilaterate` with the same `1e-10` degeneracy guard.  (The
`y` numerator is written `A*F - D*C` in this variant — equal by
commutativity to basic.py's `A*F - C*D`.) -/
def User.calculate_position (u : User) : Option (ℝ × ℝ) :=
  if ¬ u.can_calculate_position then none
  else
    match u.get_closest_beacons 3 with
    | b1 :: b2 :: b3 :: _ =>
      let x1 := b1.2.position.1; let y1 := b1.2.position.2
      let x2 := b2.2.position.1; let y2 := b2.2.position.2
      let x3 := b3.2.position.1; let y3 := b3.2.position.2
      let r1 := b1.2.distance
      let r2 := b2.2.distance
      let r3 := b3.2.distance
      if r1 ≤ 0 ∨ r2 ≤ 0 ∨ r3 ≤ 0 then none
      else
        let A := 2 * (x2 - x1)
        let B := 2 * (y2 - y1)
        let C := r1 ^ 2 - r2 ^ 2 - x1 ^ 2 + x2 ^ 2 - y1 ^ 2 + y2 ^ 2
        let D := 2 * (x3 - x2)
        let E := 2 * (y3 - y2)
        let F := r2 ^ 2 - r3 ^ 2 - x2 ^ 2 + x3 ^ 2 - y2 ^ 2 + y3 ^ 2
        let den := A * E - B * D
        if |den| < 1 / 10 ^ 10 then none
        else some ((C * E - F * B) / den, (A * F - D * C) / den)
    | _ => none               -- unreachable: at least 3 entries

/-- One element of the `closest_beacons` list inside an emitted position
dictionary. -/
structure ClosestInfo where
  mac : String
  distance : ℝ
  rssi : ℤ

/-- The position-info dictionary returned by `User.update_position` and
`Triangulation.force_calculate_position`. -/
structure PosInfo where
  user_id : String
  x : ℝ
  y : ℝ
  beacons_used : ℕ
  closest_beacons : List ClosestInfo

/-- The `closest_beacons` field of an emitted dictionary. -/
def User.closestInfo (u : User) : List ClosestInfo :=
  (u.get_closest_beacons 3).map fun p =>
    ⟨p.1, round2 p.2.distance, p.2.rssi⟩

/-- `User.update_position` (triangulation.py): recompute the position;
report it (and record it as `last_position`, appending to the bounded
history) only when there is no previous position or the point moved by
more than 0.1 m; otherwise leave the user unchanged and return nothing. -/
def User.update_position (u : User) : User × Option PosInfo :=
  match u.calculate_position with
  | none => (u, none)
  | some (x, y) =>
    let position_changed : Bool := match u.last_position with
      | none => true
      | some (lx, ly) =>
          if 0.1 < Real.sqrt ((x - lx) ^ 2 + (y - ly) ^ 2) then true
          else false
    if position_changed then
      let hist1 := u.position_history ++ [(x, y)]
      let hist := if 10 < hist1.length then hist1.drop 1 else hist1
      ({ u with last_position := some (x, y), position_history := hist },
       some ⟨u.user_id, round2 x, round2 y, u.beacon_data.length,
         u.closestInfo⟩)
    else (u, none)

/-- `Triangulation` (triangulation.py): the loaded beacon registry and
the per-user states. -/
structure Triangulation where
  beacons : List (String × (ℝ × ℝ))
  users : List (String × User)

/-- `Triangulation.__init__`'s beacon-parsing loop: `coords =
beacon['toado'].split(','); float(coords[0]); float(coords[1])` with **no**
exception handling — a missing `toado`, a missing second component or an
unparseable number raises and aborts the whole load. -/
def Triangulation.loadBeacons :
    List BeaconCfg → Except String (List (String × (ℝ × ℝ)))
  | [] => .ok []
  | b :: rest =>
    match b.toado with
    | none => .error ("KeyError: toado for " ++ b.mac)
    | some s =>
      match splitOnChar ',' s with
      | c0 :: c1 :: _ =>
          match parseFloatChars c0, parseFloatChars c1 with
          | some x, some y =>
              (Triangulation.loadBeacons rest).map
                (fun reg => (b.mac, ((x : ℝ), (y : ℝ))) :: reg)
          | _, _ => .error ("ValueError: coordinate of " ++ b.mac)
      | _ => .error ("IndexError: coordinate of " ++ b.mac)

/-- `Triangulation.__init__` (triangulation.py): parse every configured
beacon (aborting on the first bad coordinate) and start with no users. -/
def Triangulation.init (cfg : List BeaconCfg) : Except String Triangulation :=
  (Triangulation.loadBeacons cfg).map (fun reg => ⟨reg, []⟩)

/-- `Triangulation.update_rssi` (triangulation.py): create the user if
unseen (this happens *before* the beacon check), drop readings from
unknown beacons, run `update_beacon_rssi`, and only when that reports a
significant change *and* at least 3 beacons are known run
`update_position`. -/
def Triangulation.update_rssi (t : Triangulation) (user_id mac : String)
    (rssi : ℤ) : Triangulation × Option PosInfo :=
  let t1 : Triangulation :=
    if (lookupA t.users user_id).isSome then t
    else { t with users := t.users ++ [(user_id, User.mk0 user_id)] }
  match lookupA t1.beacons mac with
  | none => (t1, none)
  | some beacon_position =>
    match lookupA t1.users user_id with
    | none => (t1, none)      -- unreachable: just inserted
    | some u =>
      let (u1, has_significant_change) :=
        u.update_beacon_rssi mac rssi beacon_position
      if has_significant_change && u1.can_calculate_position then
        let (u2, info) := u1.update_position
        ({ t1 with users := updateA t1.users user_id u2 }, info)
      else ({ t1 with users := updateA t1.users user_id u1 }, none)

/-- `Triangulation.force_calculate_position` (triangulation.py): bypass
the change gate and return the current best estimate.  The source method
only reads state (it never assigns), so it is embedded as a pure
function of the `Triangulation` value. -/
def Triangulation.force_calculate_position (t : Triangulation)
    (user_id : String) : Option PosInfo :=
  match lookupA t.users user_id with
  | none => none
  | some u =>
    if ¬ u.can_calculate_position then none
    else
      match u.calculate_position with
      | none => none
      | some (x, y) =>
          some ⟨user_id, round2 x, round2 y, u.beacon_data.length,
            u.closestInfo⟩

/-- `Triangulation.parse_beacon_data` (triangulation.py): split on `':'`,
take `parts[0]` as the user id and `int(parts[1])` as the RSSI; a missing
second part (IndexError) or a non-integer (ValueError) raises
`ValueError("Invalid data format: ...")`. -/
def Triangulation.parse_beacon_data (data : String) :
    Except String (String × ℤ) :=
  match splitOnChar ':' data.toList with
  | p0 :: p1 :: _ =>
      match parseIntChars p1 with
      | some rssi => .ok (String.mk p0, rssi)
      | none => .error ("Invalid data format: " ++ data)
  | _ => .error ("Invalid data format: " ++ data)

/-- The notification handler of bencons.py (`BeaconDelegate`): parse the
payload; on `ValueError` the sample is dropped (the state is untouched),
otherwise feed it to `Triangulation.update_rssi`.  (The purely printing
`force_calculate_position` display call is omitted.) -/
def handleBeaconData (t : Triangulation) (mac : String) (data : String) :
    Triangulation × Option PosInfo :=
  match Triangulation.parse_beacon_data data with
  | .error _ => (t, none)
  | .ok (user_id, rssi) => t.update_rssi user_id mac rssi

/-! ### Claim theorems -/

/-- C1: with beacons at (0,0), (4,0), (0,3) and the exact Euclidean
distances from the true point (1,1) fed as readings, the solver returns
a position within 1e-6 of (1,1) (here: exactly (1,1)). -/
theorem spec_C1_roundtrip_solve :
    ∃ q : ℝ × ℝ,
      (trilaterate [((0 : ℝ), 0), (4, 0), (0, 3)]
          [Real.sqrt ((1 - 0) ^ 2 + (1 - 0) ^ 2),
           Real.sqrt ((1 - 4) ^ 2 + (1 - 0) ^ 2),
           Real.sqrt ((1 - 0) ^ 2 + (1 - 3) ^ 2)]).map (fun r => r.1) =
        some q ∧
      |q.1 - 1| ≤ 1 / 1000000 ∧ |q.2 - 1| ≤ 1 / 1000000 := by
  have h1 : Real.sqrt (((1 : ℝ) - 0) ^ 2 + (1 - 0) ^ 2) ^ 2 = 2 := by
    rw [Real.sq_sqrt] <;> norm_num
  have h2 : Real.sqrt (((1 : ℝ) - 4) ^ 2 + (1 - 0) ^ 2) ^ 2 = 10 := by
    rw [Real.sq_sqrt] <;> norm_num
  have h3 : Real.sqrt (((1 : ℝ) - 0) ^ 2 + (1 - 3) ^ 2) ^ 2 = 5 := by
    rw [Real.sq_sqrt] <;> norm_num
  refine ⟨(1, 1), ?_, by norm_num, by norm_num⟩
  simp only [trilaterate]
  norm_num [h1, h2, h3]

/-- C2: the solver returns `none` whenever the 2×2 determinant
`A*E - B*D` is below the `1e-10` threshold, and in particular for every
collinear beacon triple with arbitrary positive distances — the division
is never reached. -/
theorem spec_C2_degenerate_none :
    (∀ x1 y1 x2 y2 x3 y3 r1 r2 r3 : ℝ,
        |2 * (x2 - x1) * (2 * (y3 - y2)) - 2 * (y2 - y1) * (2 * (x3 - x2))| <
          1 / 10 ^ 10 →
        trilaterate [(x1, y1), (x2, y2), (x3, y3)] [r1, r2, r3] = none) ∧
    (∀ x1 y1 x2 y2 x3 y3 r1 r2 r3 : ℝ,
        (x2 - x1) * (y3 - y1) = (y2 - y1) * (x3 - x1) →
        0 < r1 → 0 < r2 → 0 < r3 →
        trilaterate [(x1, y1), (x2, y2), (x3, y3)] [r1, r2, r3] = none) := by
  constructor
  · intro x1 y1 x2 y2 x3 y3 r1 r2 r3 h
    simp only [trilaterate]
    rw [if_pos h]
  · intro x1 y1 x2 y2 x3 y3 r1 r2 r3 h hr1 hr2 hr3
    have hden :
        2 * (x2 - x1) * (2 * (y3 - y2)) - 2 * (y2 - y1) * (2 * (x3 - x2)) =
          0 := by linear_combination (4 : ℝ) * h
    simp only [trilaterate]
    rw [hden]
    norm_num

/-- Witness for C2: collinear beacons (0,0), (1,0), (2,0) with unit
distances are rejected. -/
theorem spec_C2_degenerate_none_witness :
    trilaterate [((0 : ℝ), 0), (1, 0), (2, 0)] [1, 1, 1] = none :=
  spec_C2_degenerate_none.2 0 0 1 0 2 0 1 1 1 (by norm_num) (by norm_num)
    (by norm_num) (by norm_num)

/-- C3 counterexample: `estimate_distance` (basic.py) does *not* return
the no-signal sentinel on a positive RSSI — at `rssi = 5` it computes a
distance. -/
theorem spec_C3_counterexample : estimate_distance 5 ≠ none := by
  simp [estimate_distance]

/-- C3 amended: `estimate_distance` (basic.py) returns `None` exactly at
`rssi == 0` and silently computes a distance for every positive RSSI,
while the triangulation variant `_rssi_to_distance` returns the `-1.0`
sentinel both at zero and at positive RSSI for every `tx_power`. -/
theorem spec_C3_invalid_reading :
    estimate_distance 0 = none ∧
    (∀ r : ℤ, r ≠ 0 → estimate_distance r ≠ none) ∧
    (∀ tx r : ℝ, r = 0 ∨ 0 < r → User.rssi_to_distance r tx = -1) := by
  refine ⟨by norm_num [estimate_distance], ?_, ?_⟩
  · intro r h
    simp [estimate_distance, h]
  · intro tx r h
    rcases h with h | h
    · simp [User.rssi_to_distance, h]
    · rw [User.rssi_to_distance, if_neg h.ne', if_pos h]

/-- Witness for the amended C3. -/
theorem spec_C3_invalid_reading_witness :
    estimate_distance 7 ≠ none ∧ User.rssi_to_distance 7 (-55) = -1 :=
  ⟨spec_C3_invalid_reading.2.1 7 (by norm_num),
   spec_C3_invalid_reading.2.2 (-55) 7 (Or.inr (by norm_num))⟩

/-- Helper: `10 ^ (2 : ℝ) = 100` for the real power. -/
lemma ten_rpow_two : (10 : ℝ) ^ (2 : ℝ) = 100 := by
  rw [show (2 : ℝ) = ((2 : ℕ) : ℝ) from by norm_num, Real.rpow_natCast]
  norm_num

/-- Helper: `100 < 10 ^ (65/28)`. -/
lemma hundred_lt_rpow : (100 : ℝ) < (10 : ℝ) ^ ((65 : ℝ) / 28) := by
  rw [← ten_rpow_two]
  rw [Real.rpow_lt_rpow_left_iff (by norm_num : (1 : ℝ) < 10)]
  norm_num

/-- C4 counterexample: at `rssi = -120`, `estimate_distance` (basic.py)
returns `10 ^ (65/28) > 100` — the result is *not* clamped into the
range [0.1, 100]. -/
theorem spec_C4_counterexample :
    estimate_distance (-120) = some ((10 : ℝ) ^ ((65 : ℝ) / 28)) ∧
    (100 : ℝ) < (10 : ℝ) ^ ((65 : ℝ) / 28) ∧
    estimate_distance (-120) ≠
      some (max 0.1 (min ((10 : ℝ) ^ ((65 : ℝ) / 28)) 100)) := by
  have he : (TX_POWER - ((-120 : ℤ) : ℝ)) / (10 * ENV_FACTOR) =
      (65 : ℝ) / 28 := by
    norm_num [TX_POWER, ENV_FACTOR]
  have hv : estimate_distance (-120) = some ((10 : ℝ) ^ ((65 : ℝ) / 28)) := by
    rw [estimate_distance, if_neg (by norm_num), he]
  refine ⟨hv, hundred_lt_rpow, ?_⟩
  rw [hv]
  have hmin : min ((10 : ℝ) ^ ((65 : ℝ) / 28)) 100 = 100 :=
    min_eq_right hundred_lt_rpow.le
  rw [hmin]
  have hmax : max (0.1 : ℝ) 100 = 100 := by norm_num
  rw [hmax]
  intro hcontra
  have := Option.some.inj hcontra
  exact absurd (this ▸ hundred_lt_rpow) (lt_irrefl _)

/-- C4 amended: for negative RSSI, `estimate_distance` (basic.py) returns
the *unclamped* path-loss value `10 ^ ((-55 - rssi) / 28)`; the
triangulation variant `_rssi_to_distance` returns the floor `0.1` whenever
`tx_power ≤ rssi < 0` and otherwise the value `10 ^ ((tx_power - rssi)/30)`
clamped into [0.1, 100]. -/
theorem spec_C4_distance_formula :
    (∀ r : ℤ, r < 0 →
        estimate_distance r = some ((10 : ℝ) ^ ((-55 - (r : ℝ)) / 28))) ∧
    (∀ tx r : ℝ, r < 0 → tx ≤ r → User.rssi_to_distance r tx = 0.1) ∧
    (∀ tx r : ℝ, r < 0 → r < tx →
        User.rssi_to_distance r tx =
          max 0.1 (min ((10 : ℝ) ^ ((tx - r) / 30)) 100)) := by
  refine ⟨?_, ?_, ?_⟩
  · intro r hr
    have h0 : r ≠ 0 := by omega
    have he : (TX_POWER - (r : ℝ)) / (10 * ENV_FACTOR) =
        (-55 - (r : ℝ)) / 28 := by
      norm_num [TX_POWER, ENV_FACTOR]
    rw [estimate_distance, if_neg h0, he]
  · intro tx r h1 h2
    rw [User.rssi_to_distance, if_neg h1.ne, if_neg (by linarith), if_pos h2]
  · intro tx r h1 h2
    rw [User.rssi_to_distance, if_neg h1.ne, if_neg (by linarith),
      if_neg (by linarith)]

/-- Witness for the amended C4. -/
theorem spec_C4_distance_formula_witness :
    estimate_distance (-1) =
      some ((10 : ℝ) ^ ((-55 - ((-1 : ℤ) : ℝ)) / 28)) ∧
    User.rssi_to_distance (-1) (-55) = 0.1 :=
  ⟨spec_C4_distance_formula.1 (-1) (by norm_num),
   spec_C4_distance_formula.2.1 (-55) (-1) (by norm_num) (by norm_num)⟩

/-- C8: ingesting the malformed payload `"garbage"` raises a parse error,
the handler returns no position and leaves the whole triangulation state
unchanged; and parsing fails exactly when the payload has no `':'`-split
second segment or that segment is not a valid integer. -/
theorem spec_C8_malformed_input :
    (∀ t : Triangulation, ∀ mac : String,
        handleBeaconData t mac "garbage" = (t, none)) ∧
    (∃ e, Triangulation.parse_beacon_data "garbage" = .error e) ∧
    (∀ data : String,
        (∃ e, Triangulation.parse_beacon_data data = .error e) ↔
          ∀ p0 p1 rest, splitOnChar ':' data.toList = p0 :: p1 :: rest →
            parseIntChars p1 = none) := by
  have hg : Triangulation.parse_beacon_data "garbage" =
      .error ("Invalid data format: " ++ "garbage") := by rfl
  refine ⟨?_, ⟨_, hg⟩, ?_⟩
  · intro t mac
    rw [handleBeaconData, hg]
  · intro data
    rw [Triangulation.parse_beacon_data]
    cases hs : splitOnChar ':' data.toList with
    | nil => simp
    | cons p0 ps =>
      cases ps with
      | nil => simp
      | cons p1 rest =>
        cases hp : parseIntChars p1 with
        | none => simp [hp]
        | some r =>
          simp only [hp]
          constructor
          · rintro ⟨e, he⟩
            cases he
          · intro h
            have := h p0 p1 rest rfl
            rw [this] at hp
            cases hp

/-- Witness for C8: the parse of `"garbage"` fails. -/
theorem spec_C8_malformed_input_witness :
    ∃ e, Triangulation.parse_beacon_data "garbage" = .error e :=
  spec_C8_malformed_input.2.1

/-- C9 counterexample: `Triangulation.__init__` does *not* skip a beacon
with an unparseable coordinate string — it aborts the whole load on the
first bad entry (here `"a,b"`), so the remaining beacons are not loaded. -/
theorem spec_C9_counterexample :
    Triangulation.init
        [⟨"m1", some "1,2".toList⟩, ⟨"m2", some "a,b".toList⟩,
         ⟨"m3", some "3,4".toList⟩] =
      .error "ValueError: coordinate of m2" := by rfl

/-- C9 amended: the basic.py loader `beacon_coords` has the claimed
behavior for every configuration — each entry with an unparseable
coordinate string is excluded and a warning is recorded for it, every
parseable entry is loaded, and the load always completes; the
`Triangulation.__init__` variant instead aborts on the first bad entry
(see the counterexample). -/
theorem spec_C9_registry_skip_warn :
    ∀ cfg : List BeaconCfg,
      (beacon_coords cfg).1 =
        cfg.filterMap (fun b => b.toado.bind fun s =>
          (parseCoordPair s).map fun xy => (b.mac, xy)) ∧
      (beacon_coords cfg).2 =
        cfg.filterMap (fun b => b.toado.bind fun s =>
          if (parseCoordPair s).isSome then none else some b.mac) := by
  intro cfg
  induction cfg with
  | nil => simp [beacon_coords]
  | cons b rest ih =>
    obtain ⟨h1, h2⟩ := ih
    cases hb : b.toado with
    | none => simp [beacon_coords, hb, h1, h2]
    | some s =>
      cases hp : parseCoordPair s with
      | none => simp [beacon_coords, hb, hp, h1, h2]
      | some xy => simp [beacon_coords, hb, hp, h1, h2]

/-- The stable insertion preserves length. -/
lemma insertByDistance_length (p : String × BeaconEntry) :
    ∀ l, (insertByDistance p l).length = l.length + 1 := by
  intro l
  induction l with
  | nil => rfl
  | cons q qs ih =>
    rw [insertByDistance]
    by_cases h : p.2.distance < q.2.distance
    · rw [if_pos h]; simp
    · rw [if_neg h]; simp [ih]

/-- The distance sort preserves length. -/
lemma sortByDistance_length :
    ∀ l, (sortByDistance l).length = l.length := by
  intro l
  induction l with
  | nil => rfl
  | cons p ps ih => rw [sortByDistance, insertByDistance_length, ih]; rfl

/-- C10: for an entity with at least 3 recorded beacons, if any of the 3
closest recorded distances is non-positive (e.g. the `-1.0` sentinel),
`calculate_position` returns `none`. -/
theorem spec_C10_nonpositive_guard :
    ∀ u : User, 3 ≤ u.beacon_data.length →
      (∃ p ∈ u.get_closest_beacons 3, p.2.distance ≤ 0) →
      u.calculate_position = none := by
  intro u h3 hex
  obtain ⟨p, hp, hd⟩ := hex
  have hlen : (u.get_closest_beacons 3).length = 3 := by
    rw [User.get_closest_beacons, if_neg]
    · rw [List.length_take, sortByDistance_length]
      omega
    · intro hemp
      rw [List.isEmpty_iff] at hemp
      rw [hemp] at h3
      simp at h3
  obtain ⟨b1, b2, b3, hshape⟩ := List.length_eq_three.mp hlen
  have hcan : u.can_calculate_position = true := by
    simp [User.can_calculate_position]
    omega
  rw [User.calculate_position, hcan]
  simp only [not_true, if_false, hshape]
  rw [hshape] at hp
  simp only [List.mem_cons, List.not_mem_nil, or_false] at hp
  rcases hp with hp | hp | hp <;> subst hp
  · rw [if_pos (Or.inl hd)]
  · rw [if_pos (Or.inr (Or.inl hd))]
  · rw [if_pos (Or.inr (Or.inr hd))]

/-- A concrete entity for the C10 witness: three beacons, the closest of
which carries the `-1.0` invalid-reading sentinel distance. -/
def uC10 : User :=
  ⟨"u", [("b1", ⟨0, 0, [], -1, (0, 0)⟩), ("b2", ⟨0, 0, [], 1, (4, 0)⟩),
    ("b3", ⟨0, 0, [], 2, (0, 3)⟩)], none, [], []⟩

/-- Witness for C10. -/
theorem spec_C10_nonpositive_guard_witness : uC10.calculate_position = none :=
  spec_C10_nonpositive_guard uC10 (by norm_num [uC10])
    ⟨("b1", ⟨0, 0, [], -1, (0, 0)⟩), by
      norm_num [uC10, User.get_closest_beacons, sortByDistance,
        insertByDistance], by norm_num⟩

/-- `update_position` never touches `beacon_data`. -/
lemma update_position_fst_beacon_data (u : User) :
    (u.update_position).1.beacon_data = u.beacon_data := by
  rw [User.update_position]
  cases hc : u.calculate_position with
  | none => rfl
  | some p =>
    obtain ⟨x, y⟩ := p
    cases hl : u.last_position with
    | none => simp
    | some l =>
      obtain ⟨lx, ly⟩ := l
      by_cases hm : (0.1 : ℝ) < Real.sqrt ((x - lx) ^ 2 + (y - ly) ^ 2)
      · simp [hm]
      · simp [hm]

/-- `calculate_position` only reads `beacon_data`. -/
lemma calculate_position_congr {u v : User}
    (h : u.beacon_data = v.beacon_data) :
    u.calculate_position = v.calculate_position := by
  simp only [User.calculate_position, User.can_calculate_position,
    User.get_closest_beacons, h]

/-- When the freshly solved position is within the 0.1 m gate of the last
reported one, `update_position` emits nothing and leaves the user
entirely unchanged. -/
lemma update_position_no_change (u : User) (x y lx ly : ℝ)
    (hc : u.calculate_position = some (x, y))
    (hl : u.last_position = some (lx, ly))
    (hm : ¬ (0.1 : ℝ) < Real.sqrt ((x - lx) ^ 2 + (y - ly) ^ 2)) :
    u.update_position = (u, none) := by
  rw [User.update_position, hc]
  simp [hl, hm]

/-- When the gate passes (no prior position, or moved by more than
0.1 m), `update_position` emits and records the new position. -/
lemma update_position_emits (u : User) (x y : ℝ)
    (hc : u.calculate_position = some (x, y))
    (hgate : u.last_position = none ∨
      ∃ lx ly, u.last_position = some (lx, ly) ∧
        (0.1 : ℝ) < Real.sqrt ((x - lx) ^ 2 + (y - ly) ^ 2)) :
    ((u.update_position).2).isSome ∧
      (u.update_position).1.last_position = some (x, y) := by
  rw [User.update_position, hc]
  rcases hgate with hl | ⟨lx, ly, hl, hm⟩
  · simp [hl]
  · simp [hl, hm]

/-- Either `update_position` leaves the user unchanged (gate closed), or
it records the solved position as the new `last_position`. -/
lemma update_position_cases (u : User) (x y : ℝ)
    (hc : u.calculate_position = some (x, y)) :
    (u.update_position = (u, none) ∧
      ∃ lx ly, u.last_position = some (lx, ly) ∧
        ¬ (0.1 : ℝ) < Real.sqrt ((x - lx) ^ 2 + (y - ly) ^ 2)) ∨
    (u.update_position).1.last_position = some (x, y) := by
  cases hl : u.last_position with
  | none => exact Or.inr (update_position_emits u x y hc (Or.inl hl)).2
  | some l =>
    obtain ⟨lx, ly⟩ := l
    by_cases hm : (0.1 : ℝ) < Real.sqrt ((x - lx) ^ 2 + (y - ly) ^ 2)
    · exact Or.inr
        (update_position_emits u x y hc (Or.inr ⟨lx, ly, hl, hm⟩)).2
    · exact Or.inl ⟨update_position_no_change u x y lx ly hc hl hm, lx, ly,
        rfl, hm⟩

/-- A position that did not move fails the strict 0.1 m gate. -/
lemma sqrt_self_dist_not_gt (x y : ℝ) :
    ¬ (0.1 : ℝ) < Real.sqrt ((x - x) ^ 2 + (y - y) ^ 2) := by
  have h0 : ((x - x) ^ 2 + (y - y) ^ 2 : ℝ) = 0 := by ring
  rw [h0, Real.sqrt_zero]
  norm_num

/-- Running `update_position` twice in a row (with `beacon_data`, hence
the solved position, unchanged in between) never emits on the second
call. -/
lemma update_position_twice_none (u : User) (x y : ℝ)
    (hc : u.calculate_position = some (x, y)) :
    (((u.update_position).1).update_position).2 = none := by
  have hc2 : ((u.update_position).1).calculate_position = some (x, y) := by
    rw [calculate_position_congr (update_position_fst_beacon_data u), hc]
  rcases update_position_cases u x y hc with ⟨heq, lx, ly, hl, hm⟩ | h1
  · rw [heq]
    exact congrArg Prod.snd (update_position_no_change u x y lx ly hc hl hm)
  · exact congrArg Prod.snd
      (update_position_no_change _ x y x y hc2 h1 (sqrt_self_dist_not_gt x y))

/-- `force_calculate_position` returns an estimate exactly when the user
has at least 3 beacons and the solver succeeds — independently of
`last_position`. -/
lemma force_isSome_iff (t : Triangulation) (uid : String) (u : User)
    (hu : lookupA t.users uid = some u) :
    (t.force_calculate_position uid).isSome ↔
      3 ≤ u.beacon_data.length ∧ (u.calculate_position).isSome := by
  rw [Triangulation.force_calculate_position, hu]
  dsimp only
  by_cases h3 : 3 ≤ u.beacon_data.length
  · have hcan : u.can_calculate_position = true := by
      simp [User.can_calculate_position]
      omega
    rw [hcan]
    cases hcp : u.calculate_position with
    | none => simp [hcp]
    | some p =>
      obtain ⟨x, y⟩ := p
      simp [hcp, h3]
  · have hcan : u.can_calculate_position = false := by
      simp [User.can_calculate_position]
      omega
    rw [hcan]
    simp [h3]

/-- C6: a newly solved position is reported iff the entity has no prior
reported position or it moved by more than 0.1 m; and two consecutive
recomputations with unchanged readings emit at most once (the second
never emits). -/
theorem spec_C6_change_gating :
    (∀ (u : User) (p : ℝ × ℝ), u.calculate_position = some p →
        (((u.update_position).2).isSome ↔
          u.last_position = none ∨
            ∃ l, u.last_position = some l ∧
              (0.1 : ℝ) < Real.sqrt ((p.1 - l.1) ^ 2 + (p.2 - l.2) ^ 2))) ∧
    (∀ (u : User) (p : ℝ × ℝ), u.calculate_position = some p →
        (((u.update_position).1).update_position).2 = none) := by
  constructor
  · intro u p hc
    obtain ⟨x, y⟩ := p
    constructor
    · intro hs
      cases hl : u.last_position with
      | none => exact Or.inl rfl
      | some l =>
        obtain ⟨lx, ly⟩ := l
        by_cases hm : (0.1 : ℝ) < Real.sqrt ((x - lx) ^ 2 + (y - ly) ^ 2)
        · exact Or.inr ⟨(lx, ly), rfl, hm⟩
        · rw [update_position_no_change u x y lx ly hc hl hm] at hs
          cases hs
    · intro hgate
      refine (update_position_emits u x y hc ?_).1
      rcases hgate with hl | ⟨l, hl, hm⟩
      · exact Or.inl hl
      · exact Or.inr ⟨l.1, l.2, by rw [hl], hm⟩
  · intro u p hc
    obtain ⟨x, y⟩ := p
    exact update_position_twice_none u x y hc

/-- The three-beacon data used by the C6/C7 witnesses: beacons at (0,0),
(4,0), (0,3) with distances 1, 2, 3; the solver yields (13/8, 1/6). -/
def bd3 : List (String × BeaconEntry) :=
  [("b1", ⟨0, 0, [], 1, (0, 0)⟩), ("b2", ⟨0, 0, [], 2, (4, 0)⟩),
   ("b3", ⟨0, 0, [], 3, (0, 3)⟩)]

/-- Witness entity for C6: fresh (no prior reported position). -/
def uC6 : User := ⟨"u", bd3, none, [], []⟩

lemma uC6_calc : uC6.calculate_position = some (13 / 8, 1 / 6) := by
  norm_num [uC6, bd3, User.calculate_position, User.can_calculate_position,
    User.get_closest_beacons, sortByDistance, insertByDistance]

/-- Witness for C6: the fresh entity emits on the first recomputation and
not on an immediately following one. -/
theorem spec_C6_change_gating_witness :
    ((uC6.update_position).2).isSome ∧
      (((uC6.update_position).1).update_position).2 = none :=
  ⟨(spec_C6_change_gating.1 uC6 (13 / 8, 1 / 6) uC6_calc).mpr (Or.inl rfl),
   spec_C6_change_gating.2 uC6 (13 / 8, 1 / 6) uC6_calc⟩

/-- C7: the force/on-demand query returns the current best estimate
exactly when at least 3 beacons are available and the solve succeeds
(bypassing the change gate), and — being a pure read of the entity state
(the source method performs no writes) — it coexists with a gated path
that, in the same situation, emits nothing and leaves the entity state,
in particular the stored last reported position, unchanged. -/
theorem spec_C7_force_bypass :
    (∀ (t : Triangulation) (uid : String) (u : User),
        lookupA t.users uid = some u →
        ((t.force_calculate_position uid).isSome ↔
          3 ≤ u.beacon_data.length ∧ (u.calculate_position).isSome)) ∧
    (∀ (t : Triangulation) (uid : String) (u : User) (p : ℝ × ℝ),
        lookupA t.users uid = some u →
        u.calculate_position = some p →
        u.last_position = some p →
        u.update_position = (u, none) ∧
          (t.force_calculate_position uid).isSome) := by
  constructor
  · exact force_isSome_iff
  · intro t uid u p hu hc hl
    obtain ⟨x, y⟩ := p
    have hnone : u.update_position = (u, none) :=
      update_position_no_change u x y x y hc hl (sqrt_self_dist_not_gt x y)
    refine ⟨hnone, (force_isSome_iff t uid u hu).mpr ⟨?_, by rw [hc]; rfl⟩⟩
    by_contra h3
    rw [User.calculate_position] at hc
    have hcan : u.can_calculate_position = false := by
      simp [User.can_calculate_position]
      omega
    rw [hcan] at hc
    simp at hc

/-- Witness entity and state for C7: same readings as C6 but with the
solved position already recorded as the last reported one. -/
def uC7 : User := ⟨"u", bd3, some (13 / 8, 1 / 6), [], []⟩

def tC7 : Triangulation := ⟨[], [("u", uC7)]⟩

lemma uC7_calc : uC7.calculate_position = some (13 / 8, 1 / 6) := by
  norm_num [uC7, bd3, User.calculate_position, User.can_calculate_position,
    User.get_closest_beacons, sortByDistance, insertByDistance]

/-- Witness for C7: the gated path emits nothing and does not modify the
entity, while the force path still returns the estimate. -/
theorem spec_C7_force_bypass_witness :
    uC7.update_position = (uC7, none) ∧
      (tC7.force_calculate_position "u").isSome :=
  spec_C7_force_bypass.2 tC7 "u" uC7 (13 / 8, 1 / 6)
    (by simp [tC7, lookupA]) uC7_calc rfl

/-- The distance currently recorded for `(uid, mac)` in a triangulation
state — the observable that C5 claims an RSSI-0 sample cannot alter. -/
def recordedDistance (t : Triangulation) (uid mac : String) : Option ℝ :=
  (lookupA t.users uid).bind fun u =>
    (lookupA u.beacon_data mac).map fun e => e.distance

/-- Initial triangulation state for the C5 counterexample: one beacon,
no users. -/
def tC5 : Triangulation := ⟨[("b1", (0, 0))], []⟩

/-- The clamped path-loss value for a filtered RSSI of -60 exceeds the
0.1 m floor. -/
lemma point_one_lt_clamp :
    (0.1 : ℝ) < max 0.1 (min ((10 : ℝ) ^ ((1 : ℝ) / 6)) 100) := by
  have h1 : (1 : ℝ) ≤ (10 : ℝ) ^ ((1 : ℝ) / 6) := by
    have h := (Real.rpow_le_rpow_left_iff
      (by norm_num : (1 : ℝ) < 10)).mpr (by norm_num : (0 : ℝ) ≤ 1 / 6)
    rwa [Real.rpow_zero] at h
  refine lt_of_lt_of_le ?_ (le_max_right _ _)
  exact lt_min (by linarith) (by norm_num)

lemma tC5_step1 :
    recordedDistance (tC5.update_rssi "u1" "b1" (-60)).1 "u1" "b1" =
      some (max 0.1 (min ((10 : ℝ) ^ ((1 : ℝ) / 6)) 100)) := by
  norm_num [recordedDistance, tC5, Triangulation.update_rssi, User.mk0,
    User.update_beacon_rssi, User.rssi_to_distance,
    User.can_calculate_position, KF1.predict, KF1.update, lookupA, updateA]

lemma tC5_step2 :
    recordedDistance
        ((tC5.update_rssi "u1" "b1" (-60)).1.update_rssi "u1" "b1" 0).1
        "u1" "b1" = some (0.1 : ℝ) := by
  norm_num [recordedDistance, tC5, Triangulation.update_rssi, User.mk0,
    User.update_beacon_rssi, User.rssi_to_distance,
    User.can_calculate_position, KF1.predict, KF1.update, lookupA, updateA]

/-- C5 counterexample: in the triangulation pipeline an RSSI-0 sample is
*not* dropped — after a -60 dBm reading recorded ≈1.47 m for beacon b1,
ingesting RSSI 0 for the same beacon overwrites the recorded distance
(the Kalman-filtered RSSI rises above `tx_power`, so 0.1 is stored). -/
theorem spec_C5_counterexample :
    recordedDistance
        ((tC5.update_rssi "u1" "b1" (-60)).1.update_rssi "u1" "b1" 0).1
        "u1" "b1" ≠
      recordedDistance (tC5.update_rssi "u1" "b1" (-60)).1 "u1" "b1" := by
  rw [tC5_step1, tC5_step2]
  intro h
  exact absurd (Option.some.inj h) (ne_of_lt point_one_lt_clamp)

/-- C5 amended: in the basic.py pipeline the claim holds — a sample whose
RSSI parses to 0 (the only `InvalidReading` of `estimate_distance`) is
dropped before any state mutation, so nothing (filters, distances,
positions) changes and nothing is emitted; the triangulation pipeline
instead filters and records such samples (see the counterexample). -/
theorem spec_C5_invalid_drop :
    (∀ (cfg : List BeaconCfg) (st : BasicState) (mac : String)
        (data uid rssiStr : List Char),
        splitOnChar ':' data = [uid, rssiStr] →
        parseIntChars rssiStr = some 0 →
        handleNotification cfg st mac data = st) ∧
    (∀ r : ℤ, estimate_distance r = none ↔ r = 0) := by
  constructor
  · intro cfg st mac data uid rssiStr hsplit hparse
    rw [handleNotification, hsplit]
    dsimp only
    rw [hparse]
    dsimp only
    norm_num [estimate_distance]
  · intro r
    by_cases h : r = 0
    · simp [estimate_distance, h]
    · simp [estimate_distance, h]

/-- Empty basic.py state for the C5 witness. -/
def stC5 : BasicState := ⟨[], [], []⟩

/-- Witness for the amended C5: the payload `"u1:0"` leaves the basic
state untouched. -/
theorem spec_C5_invalid_drop_witness :
    handleNotification [] stC5 "B1" "u1:0".toList = stC5 :=
  spec_C5_invalid_drop.1 [] stC5 "B1" "u1:0".toList "u1".toList "0".toList
    (by rfl) (by rfl)

end RSSI
